import Mathlib

/-
  Shallow embedding of the comment-system frontend's client-side
  reconciliation logic, translated from
  `src/components/Comments/CommentList.tsx` and
  `src/components/Comments/CommentItem.tsx`.

  Numbers are modelled as `Int` (JS numbers in integer range), optional
  fields as `Option`, and JS truthiness tests are made explicit
  (`jsTruthyStr`, `jsOrInt`, `jsOrBool`, `jsOrStr`).
-/

namespace CommentSystem

/-- Sort modes of the top-level list (`type SortOption` in CommentList.tsx). -/
inductive SortOption where
  | newest
  | mostLiked
  | mostDisliked
deriving DecidableEq

/-- The fields of the `Comment` record (from `services/api`) that the
handlers under verification read or write: `_id`, `parentComment`,
`content`, `likeCount`, `dislikeCount`, `isLikedByUser`,
`isDislikedByUser`, `replyCount`. -/
structure Comment where
  id : String
  parentComment : Option String
  content : String
  likeCount : Int
  dislikeCount : Int
  isLikedByUser : Bool
  isDislikedByUser : Bool
  replyCount : Option Int
deriving DecidableEq

/-- JS truthiness of an optional string: `undefined`/`null` and the empty
string are falsy, every other string is truthy. -/
def jsTruthyStr : Option String → Bool
  | none => false
  | some s => s != ""

/-- JS `x || 0` on an optional number: absent values collapse to `0`
(`(comment.replyCount || 0)` in the source). -/
def orZero (o : Option Int) : Int :=
  o.getD 0

/-- JS `x || fallback` for numbers: `undefined` and `0` are falsy. -/
def jsOrInt (o : Option Int) (fallback : Int) : Int :=
  match o with
  | some v => if v = 0 then fallback else v
  | none => fallback

/-- JS `x || fallback` for booleans: `undefined` and `false` are falsy. -/
def jsOrBool (o : Option Bool) (fallback : Bool) : Bool :=
  match o with
  | some v => v || fallback
  | none => fallback

/-- JS `x || fallback` for strings: `undefined` and `""` are falsy. -/
def jsOrStr (o : Option String) (fallback : String) : String :=
  match o with
  | some s => if s = "" then fallback else s
  | none => fallback

/-- JS `String.prototype.trim` (whitespace stripped from both ends),
on the ASCII whitespace characters Lean's `Char.isWhitespace` covers. -/
def jsTrim (s : String) : String :=
  String.mk (((s.data.dropWhile Char.isWhitespace).reverse.dropWhile
    Char.isWhitespace).reverse)

/-- The pagination slice of CommentList state (the shape passed to
`setPagination`). -/
structure PaginationState where
  currentPage : Int
  totalPages : Int
  total : Int
  hasNextPage : Bool
  hasPrevPage : Bool
  isFirstPage : Bool
  isLastPage : Bool
  startIndex : Int
  endIndex : Int
  remainingItems : Int
deriving DecidableEq

/-- The backend pagination payload as read by `fetchComments`
(CommentList.tsx lines 50-62): the derived display fields may be absent,
in which case the code computes fallbacks with `||`. -/
structure BackendPagination where
  currentPage : Int
  totalPages : Int
  totalComments : Int
  hasNextPage : Bool
  hasPrevPage : Bool
  isFirstPage : Option Bool
  isLastPage : Option Bool
  startIndex : Option Int
  endIndex : Option Int
  remainingItems : Option Int
deriving DecidableEq

/-- The pagination mapping inside `fetchComments` (CommentList.tsx lines
51-62), with the hard-coded page size 10 (`limit: 10`). -/
def mapPagination (bp : BackendPagination) : PaginationState :=
  { currentPage := bp.currentPage,
    totalPages := bp.totalPages,
    total := bp.totalComments,
    hasNextPage := bp.hasNextPage,
    hasPrevPage := bp.hasPrevPage,
    isFirstPage := jsOrBool bp.isFirstPage (bp.currentPage = 1),
    isLastPage := jsOrBool bp.isLastPage (bp.currentPage = bp.totalPages),
    startIndex := jsOrInt bp.startIndex ((bp.currentPage - 1) * 10 + 1),
    endIndex := jsOrInt bp.endIndex (min (bp.currentPage * 10) bp.totalComments),
    remainingItems := jsOrInt bp.remainingItems
      (max 0 (bp.totalComments - bp.currentPage * 10)) }

/-- The CommentList component state touched by the push handlers:
the `comments` window, the current `sort`, and the pagination slice. -/
structure Window where
  comments : List Comment
  sort : SortOption
  pagination : PaginationState
deriving DecidableEq

/-- The `socketService.onNewComment` handler of CommentList.tsx (lines
85-89): when the pushed comment has no (truthy) parent it is prepended to
the `comments` state; nothing else in the component state is written. -/
def onNewCommentWindow (w : Window) (newComment : Comment) : Window :=
  if jsTruthyStr newComment.parentComment then w
  else { w with comments := newComment :: w.comments }

/-- Payload of a `commentReaction` push event as used by the handlers
(`data.commentId`, `data.userId`, `data.type`, `data.likeCount`,
`data.dislikeCount`). -/
structure ReactionEvent where
  commentId : String
  userId : String
  type : String
  likeCount : Int
  dislikeCount : Int
deriving DecidableEq

/-- The per-comment update performed by the `onCommentReaction` handler of
CommentList.tsx (lines 140-154): counts are overwritten; the own-reaction
flags are rewritten only when `data.userId` equals the viewing user's id,
and then only according to `data.type`. -/
def listReactionUpdate (viewerId : String) (data : ReactionEvent)
    (comment : Comment) : Comment :=
  if comment.id = data.commentId then
    { comment with
      likeCount := data.likeCount,
      dislikeCount := data.dislikeCount,
      isLikedByUser :=
        if data.userId = viewerId then
          (if data.type = "like" then true
           else if data.type = "remove" then false
           else comment.isLikedByUser)
        else comment.isLikedByUser,
      isDislikedByUser :=
        if data.userId = viewerId then
          (if data.type = "dislike" then true
           else if data.type = "remove" then false
           else comment.isDislikedByUser)
        else comment.isDislikedByUser }
  else comment

/-- The `onCommentReaction` handler of CommentList.tsx mapped over the
`comments` state. -/
def onCommentReaction (viewerId : String) (data : ReactionEvent)
    (comments : List Comment) : List Comment :=
  comments.map (listReactionUpdate viewerId data)

/-- The `handleCommentReaction` handler of CommentItem.tsx (lines 66-76):
when the event targets this item, counts are overwritten and the
own-reaction flags are set from `data.type` alone, with no check of
`data.userId`. -/
def itemReactionUpdate (data : ReactionEvent) (current : Comment) : Comment :=
  if data.commentId = current.id then
    { current with
      likeCount := data.likeCount,
      dislikeCount := data.dislikeCount,
      isLikedByUser := data.type == "like",
      isDislikedByUser := data.type == "dislike" }
  else current

/-- The `socketService.onNewReply` handler of CommentList.tsx (lines
91-101): when the pushed comment has a (truthy) parent, the parent's
`replyCount` is bumped by one via `(comment.replyCount || 0) + 1`. -/
def onNewReply (newComment : Comment) (comments : List Comment) :
    List Comment :=
  if jsTruthyStr newComment.parentComment then
    comments.map (fun c =>
      if some c.id = newComment.parentComment then
        { c with replyCount := some (orZero c.replyCount + 1) }
      else c)
  else comments

/-- The parent-side update of the `onCommentDeleted` handler of
CommentList.tsx (lines 115-119): the comment whose id equals the deleted
comment's `parentComment` gets
`replyCount := Math.max(0, (replyCount || 0) - 1)`. -/
def replyCountDecrement (parentId : Option String) (c : Comment) : Comment :=
  if some c.id = parentId then
    { c with replyCount := some (max 0 (orZero c.replyCount - 1)) }
  else c

/-- The list the `onCommentDeleted` handler of CommentList.tsx (lines
111-123) filters: the deleted id is looked up in the current top-level
`comments` state; only when it is found there with a truthy
`parentComment` is the parent's reply count decremented. -/
def deleteBase (commentId : String) (comments : List Comment) :
    List Comment :=
  match comments.find? (fun c => c.id == commentId) with
  | some deletedComment =>
      if jsTruthyStr deletedComment.parentComment then
        comments.map (replyCountDecrement deletedComment.parentComment)
      else comments
  | none => comments

/-- The full `onCommentDeleted` handler of CommentList.tsx (lines
111-123): both branches end by filtering the deleted id out of the
(possibly parent-updated) list. -/
def onCommentDeleted (commentId : String) (comments : List Comment) :
    List Comment :=
  (deleteBase commentId comments).filter (fun c => !(c.id == commentId))

/-- The `handleNewReply` handler of CommentItem.tsx (lines 102-106): a
pushed comment whose `parentComment` strictly equals this item's id is
prepended to the `replies` state, unconditionally on load state. -/
def handleNewReply (currentId : String) (newComment : Comment)
    (replies : List Comment) : List Comment :=
  if newComment.parentComment = some currentId then newComment :: replies
  else replies

/-- The `handleReplyDeleted` handler of CommentItem.tsx (lines 108-110):
the deleted id is filtered out of the `replies` state. -/
def handleReplyDeleted (commentId : String) (replies : List Comment) :
    List Comment :=
  replies.filter (fun r => !(r.id == commentId))

/-- The reply-thread slice of CommentItem state: `replies`,
`repliesPage`, `hasMoreReplies`, `loadingReplies`. -/
structure ThreadState where
  replies : List Comment
  repliesPage : Int
  hasMoreReplies : Bool
  loadingReplies : Bool
deriving DecidableEq

/-- The payload `loadReplies` reads from a replies fetch:
`response.data.data.replies` and `response.data.data.pagination.hasNext`. -/
structure RepliesResponse where
  replies : List Comment
  hasNext : Bool
deriving DecidableEq

/-- The state update `loadReplies` of CommentItem.tsx (lines 270-288)
performs on success for a requested `page`: page 1 replaces the
sequence, any later page appends the fetched items verbatim. -/
def loadRepliesApply (page : Int) (resp : RepliesResponse)
    (st : ThreadState) : ThreadState :=
  { replies := if page = 1 then resp.replies else st.replies ++ resp.replies,
    hasMoreReplies := resp.hasNext,
    repliesPage := page,
    loadingReplies := false }

/-- The CommentItem state touched by the reaction click handlers. -/
structure ItemState where
  currentComment : Comment
  isLiking : Bool
  isDisliking : Bool
  error : Option String
deriving DecidableEq

/-- The request a reaction click handler sends to `commentsAPI`. -/
inductive ReactionRequest where
  | removeReaction (commentId : String)
  | likeComment (commentId : String)
  | dislikeComment (commentId : String)
deriving DecidableEq

/-- The synchronous part of `handleLike` in CommentItem.tsx (lines
135-153), up to the `await`: bail out while a reaction is in flight;
otherwise clear the error, set `isLiking`, and choose which request to
send from the current `isLikedByUser` flag. No comment field is written. -/
def handleLikeStart (st : ItemState) : ItemState × Option ReactionRequest :=
  if st.isLiking || st.isDisliking then (st, none)
  else
    ({ st with error := none, isLiking := true },
     some (if st.currentComment.isLikedByUser then
             ReactionRequest.removeReaction st.currentComment.id
           else
             ReactionRequest.likeComment st.currentComment.id))

/-- The synchronous part of `handleDislike` in CommentItem.tsx (lines
155-173), symmetric to `handleLikeStart`. -/
def handleDislikeStart (st : ItemState) : ItemState × Option ReactionRequest :=
  if st.isLiking || st.isDisliking then (st, none)
  else
    ({ st with error := none, isDisliking := true },
     some (if st.currentComment.isDislikedByUser then
             ReactionRequest.removeReaction st.currentComment.id
           else
             ReactionRequest.dislikeComment st.currentComment.id))

/-- The catch/finally path of `handleLike` (lines 147-152): on request
failure only the error message is set and the in-flight flag cleared. -/
def handleLikeFailure (msg : Option String) (st : ItemState) : ItemState :=
  { st with
    error := some (jsOrStr msg "Failed to update reaction"),
    isLiking := false }

/-- The CommentItem state touched by `handleUpdate`. -/
structure EditState where
  content : String
  editContent : String
  error : Option String
  isEditing : Bool
deriving DecidableEq

/-- What `handleUpdate` does besides mutating local state: either reject
locally or send `updateComment(id, editContent)`. -/
inductive UpdateAction where
  | rejectEmpty
  | sendUpdate (commentId : String) (body : String)
deriving DecidableEq

/-- The synchronous guard of `handleUpdate` in CommentItem.tsx (lines
218-235): when the edit content trims to the empty string, the error is
set to "Comment cannot be empty" and no update request is issued;
otherwise the error is cleared and the request is sent. -/
def handleUpdateStart (commentId : String) (st : EditState) :
    EditState × UpdateAction :=
  if jsTrim st.editContent = "" then
    ({ st with error := some "Comment cannot be empty" },
     UpdateAction.rejectEmpty)
  else
    ({ st with error := none },
     UpdateAction.sendUpdate commentId st.editContent)

/-- A sequence of `commentDeleted` push events applied in arrival order
through the `onCommentDeleted` handler. -/
def applyDeleteEvents (events : List String) (comments : List Comment) :
    List Comment :=
  events.foldl (fun acc e => onCommentDeleted e acc) comments

/- Concrete records used to evaluate the handlers at specific inputs. -/

/-- A pushed top-level comment (no parent). -/
def c1newComment : Comment :=
  { id := "c4", parentComment := none, content := "new comment",
    likeCount := 0, dislikeCount := 0, isLikedByUser := false,
    isDislikedByUser := false, replyCount := some 0 }

/-- A top-level comment already in the window. -/
def c1oldComment : Comment :=
  { id := "c1", parentComment := none, content := "old comment",
    likeCount := 3, dislikeCount := 0, isLikedByUser := false,
    isDislikedByUser := false, replyCount := some 0 }

/-- A window on page 2 sorted by most-liked, holding one comment and a
total count of 5. -/
def c1window : Window :=
  { comments := [c1oldComment],
    sort := SortOption.mostLiked,
    pagination :=
      { currentPage := 2, totalPages := 1, total := 5, hasNextPage := false,
        hasPrevPage := true, isFirstPage := false, isLastPage := true,
        startIndex := 11, endIndex := 5, remainingItems := 0 } }

/-- A reaction event from a different user (`userId` is not the viewer). -/
def c2event : ReactionEvent :=
  { commentId := "c1", userId := "other-user", type := "like",
    likeCount := 5, dislikeCount := 0 }

/-- The targeted comment, which the viewer has not liked. -/
def c2comment : Comment :=
  { id := "c1", parentComment := none, content := "hello",
    likeCount := 4, dislikeCount := 0, isLikedByUser := false,
    isDislikedByUser := false, replyCount := some 0 }

/-- A self reaction event of type like while the comment is disliked. -/
def c3event : ReactionEvent :=
  { commentId := "c1", userId := "viewer", type := "like",
    likeCount := 1, dislikeCount := 1 }

/-- The targeted comment, currently disliked by the viewer. -/
def c3comment : Comment :=
  { id := "c1", parentComment := none, content := "hello",
    likeCount := 0, dislikeCount := 1, isLikedByUser := false,
    isDislikedByUser := true, replyCount := some 0 }

/-- An item state with no reaction in flight and an unliked comment. -/
def c4state : ItemState :=
  { currentComment :=
      { id := "c1", parentComment := none, content := "x", likeCount := 0,
        dislikeCount := 0, isLikedByUser := false, isDislikedByUser := false,
        replyCount := some 0 },
    isLiking := false, isDisliking := false, error := none }

/-- A pushed reply for parent `p1`. -/
def c5reply : Comment :=
  { id := "r3", parentComment := some "p1", content := "a reply",
    likeCount := 0, dislikeCount := 0, isLikedByUser := false,
    isDislikedByUser := false, replyCount := some 0 }

/-- The parent comment as it sits in the top-level window. -/
def c5parent : Comment :=
  { id := "p1", parentComment := none, content := "parent",
    likeCount := 0, dislikeCount := 0, isLikedByUser := false,
    isDislikedByUser := false, replyCount := some 2 }

/-- A parent comment with two replies, none of them loaded. -/
def c6parent : Comment :=
  { id := "p1", parentComment := none, content := "parent",
    likeCount := 0, dislikeCount := 0, isLikedByUser := false,
    isDislikedByUser := false, replyCount := some 2 }

/-- One of its replies, present only in an item's replies state. -/
def c6reply : Comment :=
  { id := "r1", parentComment := some "p1", content := "reply",
    likeCount := 0, dislikeCount := 0, isLikedByUser := false,
    isDislikedByUser := false, replyCount := some 0 }

/-- A reply already loaded in a thread. -/
def c7r1 : Comment :=
  { id := "r1", parentComment := some "p1", content := "first",
    likeCount := 0, dislikeCount := 0, isLikedByUser := false,
    isDislikedByUser := false, replyCount := some 0 }

/-- A reply arriving on the next fetched page. -/
def c7r2 : Comment :=
  { id := "r2", parentComment := some "p1", content := "second",
    likeCount := 0, dislikeCount := 0, isLikedByUser := false,
    isDislikedByUser := false, replyCount := some 0 }

/-- A loaded thread holding `r1` with more pages available. -/
def c7state : ThreadState :=
  { replies := [c7r1], repliesPage := 1, hasMoreReplies := true,
    loadingReplies := false }

/-- A page-2 response that overlaps the loaded sequence at `r1`. -/
def c7resp : RepliesResponse :=
  { replies := [c7r1, c7r2], hasNext := false }

/-- A top-level window content for the delete-event sequence: a parent
and one reply record. -/
def c8comments : List Comment := [c6parent, c6reply]

/-- The backend pagination payload of the spec's arithmetic example:
totalCount 23, page 3, with no server-provided derived fields. -/
def c9backend : BackendPagination :=
  { currentPage := 3, totalPages := 3, totalComments := 23,
    hasNextPage := false, hasPrevPage := true, isFirstPage := none,
    isLastPage := none, startIndex := none, endIndex := none,
    remainingItems := none }

/-- An edit state whose edit box holds only whitespace. -/
def c10state : EditState :=
  { content := "original text", editContent := "   ", error := none,
    isEditing := true }

end CommentSystem

namespace CommentSystem

/- Helper lemmas. -/

/-- Membership in `deleteBase` preserves a nonnegative reply count: every
result element is either an untouched input element or one whose count
was set to `max 0 (previous - 1)`. -/
theorem deleteBase_nonneg (e : String) (s : List Comment)
    (h : ∀ c ∈ s, 0 ≤ orZero c.replyCount) :
    ∀ c ∈ deleteBase e s, 0 ≤ orZero c.replyCount := by
  intro c hc
  unfold deleteBase at hc
  split at hc
  · split at hc
    · obtain ⟨c0, hc0, rfl⟩ := List.mem_map.mp hc
      unfold replyCountDecrement
      split
      · simp only [orZero, Option.getD_some]
        exact le_max_left 0 _
      · exact h c0 hc0
    · exact h c hc
  · exact h c hc

/-- One `onCommentDeleted` step preserves nonnegative reply counts. -/
theorem onCommentDeleted_nonneg (e : String) (s : List Comment)
    (h : ∀ c ∈ s, 0 ≤ orZero c.replyCount) :
    ∀ c ∈ onCommentDeleted e s, 0 ≤ orZero c.replyCount := by
  intro c hc
  exact deleteBase_nonneg e s h c (List.mem_of_mem_filter hc)

/- Claim theorems. -/

/-- Claim C1, counterexample. With the window on page 2 and sort mode
most-liked, the claim predicts that a pushed top-level comment is not
inserted and that the displayed total count rises by one; the
`onNewComment` handler instead prepends the comment and never touches the
pagination state, so the claimed behaviour is false at this input. -/
theorem c1_counterexample :
    ¬ ((onNewCommentWindow c1window c1newComment).comments =
         c1window.comments ∧
       (onNewCommentWindow c1window c1newComment).pagination.total =
         c1window.pagination.total + 1) := by
  decide

/-- Claim C1, amended. On a push new top-level comment event the comment
is prepended into the current window unconditionally, regardless of the
current page and sort mode and with no truncation to the page size, and
the pagination state, including the displayed total count, is left
unchanged. -/
theorem c1_amended_unconditional_prepend (w : Window) (c : Comment)
    (h : jsTruthyStr c.parentComment = false) :
    onNewCommentWindow w c = { w with comments := c :: w.comments } := by
  simp [onNewCommentWindow, h]

/-- Claim C1, witness for the amended theorem at a concrete window on
page 2 sorted by most-liked. -/
theorem c1_witness :
    jsTruthyStr c1newComment.parentComment = false ∧
    onNewCommentWindow c1window c1newComment =
      { c1window with comments := c1newComment :: c1window.comments } :=
  ⟨by decide, c1_amended_unconditional_prepend c1window c1newComment (by decide)⟩

/-- Claim C2, code bug. The `handleCommentReaction` handler of
CommentItem.tsx sets the own-reaction flags from the event's `type`
without checking `userId`: a like event by another user turns the
viewer's `isLikedByUser` flag on, although the claim (and the sibling
CommentList handler, which does check `data.userId === user.id`) requires
the flags to stay exactly as they were. -/
theorem c2_item_overwrites_own_flag :
    c2event.userId ≠ "viewer" ∧
    c2comment.isLikedByUser = false ∧
    (itemReactionUpdate c2event c2comment).isLikedByUser = true ∧
    (itemReactionUpdate c2event c2comment).likeCount = c2event.likeCount := by
  decide

/-- Claim C3, code bug. Applying the CommentList `onCommentReaction`
update for a self like event to a comment the viewer currently dislikes
leaves `isDislikedByUser` untouched while setting `isLikedByUser`, so
both own-reaction flags are true afterwards, violating the claimed
invariant. -/
theorem c3_both_flags_after_self_like :
    c3comment.isDislikedByUser = true ∧
    (listReactionUpdate "viewer" c3event c3comment).isLikedByUser = true ∧
    (listReactionUpdate "viewer" c3event c3comment).isDislikedByUser = true := by
  decide

/-- Claim C4, counterexample. The claim predicts that immediately after a
user-initiated like the own-reaction flag is flipped and the like count
incremented; the synchronous part of `handleLike` leaves both exactly as
they were, so the claimed behaviour is false at this input. -/
theorem c4_counterexample :
    ¬ ((handleLikeStart c4state).1.currentComment.isLikedByUser = true ∧
       (handleLikeStart c4state).1.currentComment.likeCount =
         c4state.currentComment.likeCount + 1) := by
  decide

/-- Claim C4, amended. A user-initiated like or dislike performs no
optimistic change at all: the synchronous phase only clears the error,
sets the in-flight flag and chooses the request, leaving the comment's
reaction flags and counts untouched, and after a request failure the
comment record still equals the pre-action snapshot (only the error
message differs). -/
theorem c4_amended_no_local_change (st : ItemState) (msg : Option String) :
    (handleLikeStart st).1.currentComment = st.currentComment ∧
    (handleDislikeStart st).1.currentComment = st.currentComment ∧
    (handleLikeFailure msg (handleLikeStart st).1).currentComment =
      st.currentComment := by
  cases h : st.isLiking || st.isDisliking <;>
    simp [handleLikeStart, handleDislikeStart, handleLikeFailure, h]

/-- Claim C5, counterexample. For a parent whose thread was never loaded
(empty, never-fetched replies state), the claim predicts the pushed reply
is not added to the reply sequence; `handleNewReply` prepends it
unconditionally, so the claimed behaviour is false at this input. -/
theorem c5_counterexample :
    ¬ (handleNewReply "p1" c5reply ([] : List Comment) = ([] : List Comment)) := by
  decide

/-- Claim C5, amended. On a push new reply event the parent's reply count
is incremented by the CommentList handler, and the reply is prepended to
the mounted item's reply sequence regardless of whether the thread was
ever loaded. -/
theorem c5_amended_materializes_always (pid : String) (r : Comment)
    (replies comments : List Comment)
    (hp : r.parentComment = some pid) (hne : pid ≠ "") :
    handleNewReply pid r replies = r :: replies ∧
    onNewReply r comments =
      comments.map (fun c =>
        if c.id = pid then
          { c with replyCount := some (orZero c.replyCount + 1) }
        else c) := by
  constructor
  · simp [handleNewReply, hp]
  · simp [onNewReply, hp, jsTruthyStr, hne]

/-- Claim C5, witness for the amended theorem: a pushed reply for parent
`p1` with an unloaded thread and a window holding the parent. -/
theorem c5_witness :
    c5reply.parentComment = some "p1" ∧ ("p1" : String) ≠ "" ∧
    (handleNewReply "p1" c5reply [] = [c5reply] ∧
     onNewReply c5reply [c5parent] =
       [c5parent].map (fun c =>
         if c.id = "p1" then
           { c with replyCount := some (orZero c.replyCount + 1) }
         else c)) :=
  ⟨by decide, by decide,
    c5_amended_materializes_always "p1" c5reply [] [c5parent]
      (by decide) (by decide)⟩

/-- Claim C6, code bug. A push delete event for a reply looks the deleted
id up in the top-level `comments` state, where replies never appear, so
the parent's reply count is left unchanged instead of being decremented;
the item-level handler only removes the reply from its sequence. -/
theorem c6_delete_reply_count_unchanged :
    onCommentDeleted "r1" [c6parent] = [c6parent] ∧
    (c6parent.replyCount = some 2) ∧
    handleReplyDeleted "r1" [c6reply] = [] := by
  decide

/-- Claim C7, counterexample. Loading page 2 of a thread whose fetched
page overlaps the already-loaded sequence re-inserts the overlapping
identifier: the resulting reply id sequence has a duplicate, so the
claimed no-duplicates invariant is false at this input. -/
theorem c7_counterexample :
    ¬ (((loadRepliesApply 2 c7resp c7state).replies.map Comment.id).Nodup) := by
  decide

/-- Claim C7, amended. A load-more fetch (any page other than 1) appends
the fetched page's items to the loaded sequence verbatim, with no
deduplication by identifier; page 1 replaces the sequence wholesale. -/
theorem c7_amended_append_verbatim (page : Int) (resp : RepliesResponse)
    (st : ThreadState) (h : page ≠ 1) :
    (loadRepliesApply page resp st).replies = st.replies ++ resp.replies := by
  simp [loadRepliesApply, h]

/-- Claim C7, witness for the amended theorem at page 2 with an
overlapping response. -/
theorem c7_witness :
    (2 : Int) ≠ 1 ∧
    (loadRepliesApply 2 c7resp c7state).replies =
      c7state.replies ++ c7resp.replies :=
  ⟨by decide, c7_amended_append_verbatim 2 c7resp c7state (by decide)⟩

/-- Claim C8, confirmed. For every sequence of delete events applied to a
window whose reply counts are nonnegative, every reply count in the
result stays nonnegative: the only count update performed by
`onCommentDeleted` is `max 0 (count - 1)`, which floors at zero even for
duplicate or out-of-order deletions. -/
theorem c8_reply_count_never_negative (events : List String)
    (s : List Comment) (h : ∀ c ∈ s, 0 ≤ orZero c.replyCount) :
    ∀ c ∈ applyDeleteEvents events s, 0 ≤ orZero c.replyCount := by
  induction events generalizing s with
  | nil => simpa [applyDeleteEvents] using h
  | cons e es ih =>
      have hstep := onCommentDeleted_nonneg e s h
      simpa [applyDeleteEvents] using ih (onCommentDeleted e s) hstep

/-- Claim C8, witness: a duplicated delete event for the same reply,
applied to a parent with reply count 2 and the reply record itself. -/
theorem c8_witness :
    (∀ c ∈ c8comments, 0 ≤ orZero c.replyCount) ∧
    (∀ c ∈ applyDeleteEvents ["r1", "r1"] c8comments,
      0 ≤ orZero c.replyCount) :=
  ⟨by decide, c8_reply_count_never_negative ["r1", "r1"] c8comments (by decide)⟩

/-- Claim C9, confirmed. With totalCount 23, page size 10, current page 3
and no server-provided derived fields, the pagination mapping computes
startIndex 21, endIndex 23, remainingItems 0 and isLastPage true. -/
theorem c9_pagination_example :
    (mapPagination c9backend).startIndex = 21 ∧
    (mapPagination c9backend).endIndex = 23 ∧
    (mapPagination c9backend).remainingItems = 0 ∧
    (mapPagination c9backend).isLastPage = true := by
  decide

/-- Claim C10, confirmed. When the edit content trims to the empty
string, `handleUpdate` sets the error message "Comment cannot be empty",
issues no update request, and leaves the stored content (and everything
else in the edit state) unchanged. -/
theorem c10_empty_edit_rejected (commentId : String) (st : EditState)
    (h : jsTrim st.editContent = "") :
    handleUpdateStart commentId st =
      ({ st with error := some "Comment cannot be empty" },
       UpdateAction.rejectEmpty) := by
  simp [handleUpdateStart, h]

/-- Claim C10, witness at a whitespace-only edit box. -/
theorem c10_witness :
    jsTrim c10state.editContent = "" ∧
    handleUpdateStart "c1" c10state =
      ({ c10state with error := some "Comment cannot be empty" },
       UpdateAction.rejectEmpty) :=
  ⟨by decide, c10_empty_edit_rejected "c1" c10state (by decide)⟩

end CommentSystem
